import Mathlib

/-!
Verification of the normalization and aggregation layer of the game-catalog
backend (controllers, services, transformers and validation middleware).

The JavaScript sources are shallowly embedded:

* JS runtime values are modelled by the inductive type `JSVal` (with an
  explicit `undefined` constructor, since the field mappers distinguish a key
  bound to `undefined` from an absent key);
* pure functions of `utils/transformer.js` and of the transformer section of
  the services are modelled as Lean functions on `JSVal`; a JS `throw` is an
  `Except.error`;
* the CRUD services operate on a typed model (`Juego`, `Resenia`, `Store`),
  with the Mongo collections modelled as lists and `ObjectId` generation
  modelled as a fresh natural number;
* the aggregation pipelines are modelled over `ℚ` (Mongo computes the
  percentages on doubles; the inputs in range make the rational model exact),
  with `$round` to one decimal modelled by `round1`;
* Lean `String` trimming / lowercasing helpers are re-implemented on the
  character list so that concrete witnesses evaluate inside the kernel.
-/

/-- JS runtime values, as far as the transformer layer distinguishes them.
`nan` is kept separate from `num` because `Number(x)` can produce `NaN`,
which is falsy. -/
inductive JSVal : Type where
  | undefined : JSVal
  | null : JSVal
  | nan : JSVal
  | bool : Bool → JSVal
  | num : ℚ → JSVal
  | str : String → JSVal
  | obj : List (String × JSVal) → JSVal
  | arr : List JSVal → JSVal

/-- JS truthiness: `undefined`, `null`, `NaN`, `false`, `0` and the empty
string are falsy; every object and array is truthy. -/
def JSVal.truthy : JSVal → Bool
  | .undefined => false
  | .null => false
  | .nan => false
  | .bool b => b
  | .num q => decide (q ≠ 0)
  | .str s => decide (s ≠ "")
  | .obj _ => true
  | .arr _ => true

/-- Test for the `undefined` value. -/
def JSVal.isUndefined : JSVal → Bool
  | .undefined => true
  | _ => false

/-- Test for the `null` value. -/
def JSVal.isNull : JSVal → Bool
  | .null => true
  | _ => false

/-- Property access `v.k`: on an object, the first binding of the key (or
`undefined` when the key is absent); on primitives, `undefined`.  The sources
only dereference `null`/`undefined` behind truthiness guards, so the throwing
cases of JS property access are never reached in the embedded code. -/
def JSVal.getField : JSVal → String → JSVal
  | .obj fs, k => ((fs.find? (fun p => p.1 = k)).map Prod.snd).getD .undefined
  | _, _ => .undefined

/-- JS `a || b`. -/
def JSVal.orJS (a b : JSVal) : JSVal := if a.truthy then a else b

/-- JS `v.toString()`: throws a `TypeError` on `undefined` and `null`;
abstracted to a fixed text for objects and arrays (the sources only call it
on `ObjectId`-like values, whose exact text the claims never inspect). -/
def JSVal.toStringJS : JSVal → Except String String
  | .undefined => .error "TypeError: toString of undefined"
  | .null => .error "TypeError: toString of null"
  | .nan => .ok "NaN"
  | .bool b => .ok (if b then "true" else "false")
  | .num q => .ok (toString q)
  | .str s => .ok s
  | .obj _ => .ok "[object Object]"
  | .arr _ => .ok ""

/-- Character-list implementation of `String.prototype.trim`, so concrete
inputs reduce in the kernel. -/
def trimJS (s : String) : String :=
  String.mk (((s.data.dropWhile Char.isWhitespace).reverse.dropWhile Char.isWhitespace).reverse)

/-- Character-list implementation of `String.prototype.toLowerCase`
(ASCII case folding, which covers the titles the sources compare). -/
def toLowerJS (s : String) : String := String.mk (s.data.map Char.toLower)

/-- Numeric conversion of a string, as `Number(s)` does: empty/whitespace is
`0`, an optionally signed run of digits is exact; other forms (decimals,
exponents) are abstracted to `NaN`. -/
def strToNumJS (s : String) : JSVal :=
  let t := trimJS s
  if t = "" then .num 0
  else
    let sgn : ℚ := match t.data with
      | '-' :: _ => -1
      | _ => 1
    let resto : List Char := match t.data with
      | '-' :: r => r
      | '+' :: r => r
      | r => r
    if resto ≠ [] ∧ resto.all Char.isDigit then
      .num (sgn * (resto.foldl (fun n c => 10 * n + (c.toNat - 48)) 0 : ℕ))
    else .nan

/-- JS `Number(v)`. -/
def JSVal.numberJS : JSVal → JSVal
  | .undefined => .nan
  | .null => .num 0
  | .nan => .nan
  | .bool b => .num (if b then 1 else 0)
  | .num q => .num q
  | .str s => strToNumJS s
  | .obj _ => .nan
  | .arr _ => .nan

/-- Modelled abstraction of `new Date(v).toISOString()`: stored timestamps
(strings/numbers/booleans) normalize to a text; a plain object is an invalid
date and throws a `RangeError`.  The claims never inspect the exact text. -/
def JSVal.dateToISO : JSVal → Except String String
  | .str s => .ok s
  | .num q => .ok (toString q)
  | .bool _ => .ok "1970-01-01T00:00:00.001Z"
  | _ => .error "RangeError: Invalid time value"

/-- Lookup of a key in a backend-bound mapping result (`none` when the key
was omitted from the output object). -/
def buscarCampo : JSVal → String → Option JSVal
  | .obj fs, k => (fs.find? (fun p => p.1 = k)).map Prod.snd
  | _, _ => none

/-- Presence of a key in a mapping result. -/
def tieneCampo (v : JSVal) (k : String) : Bool := (buscarCampo v k).isSome

/-- Required item fields that `transformarABackend` always keeps
(utils/transformer.js line 31: titulo, genero, plataforma). -/
def camposRequeridosJuego : List String := ["titulo", "genero", "plataforma"]

/-- Embedding of `transformarABackend` (utils/transformer.js lines 10-40):
maps the frontend item payload to the backend shape, then drops `undefined`
values except at the required keys. -/
def transformarABackend (juegoFrontend : JSVal) : JSVal :=
  let juegoBackend : List (String × JSVal) :=
    [("titulo", juegoFrontend.getField "nombre"),
     ("añoLanzamiento", juegoFrontend.getField "año"),
     ("imagenPortada", (juegoFrontend.getField "imagen").orJS (.str "")),
     ("descripcion", (juegoFrontend.getField "resena").orJS (.str "")),
     ("genero", juegoFrontend.getField "genero"),
     ("plataforma", juegoFrontend.getField "plataforma"),
     ("tienda", (juegoFrontend.getField "tienda").orJS (.str "")),
     ("desarrollador", (juegoFrontend.getField "desarrollador").orJS (.str "")),
     ("completado",
       if (juegoFrontend.getField "completado").isUndefined then .bool false
       else juegoFrontend.getField "completado"),
     ("horasJugadas",
       if (juegoFrontend.getField "horasJugadas").isUndefined then .num 0
       else juegoFrontend.getField "horasJugadas")]
  .obj (juegoBackend.filter
    (fun p => decide (p.1 ∈ camposRequeridosJuego) || !p.2.isUndefined))

/-- The timestamp conversion pattern of the frontend-bound mappers:
`v ? new Date(v).toISOString() : null`. -/
def fechaAFrontend (v : JSVal) : Except String JSVal :=
  if v.truthy then JSVal.str <$> v.dateToISO else pure JSVal.null

/-- The `juegoId` conversion of the frontend-bound review mapper:
`typeof v === "object" && v !== null ? v.toString() : (v || "")`. -/
def juegoIdAFrontend : JSVal → Except String JSVal
  | .obj fs => JSVal.str <$> (JSVal.obj fs).toStringJS
  | .arr xs => JSVal.str <$> (JSVal.arr xs).toStringJS
  | v => pure (v.orJS (.str ""))

/-- Embedding of `transformarAFrontend` (utils/transformer.js lines 47-66):
falsy input returns `null`; otherwise the object literal is built, evaluating
`_id.toString()` first (it throws when `_id` is missing, in particular on
every truthy non-object input). -/
def transformarAFrontend (juegoBackend : JSVal) : Except String JSVal :=
  if !juegoBackend.truthy then .ok .null
  else do
    let id ← (juegoBackend.getField "_id").toStringJS
    let fechaCreacion ← fechaAFrontend (juegoBackend.getField "fechaCreacion")
    pure (JSVal.obj
      [("id", .str id),
       ("nombre", juegoBackend.getField "titulo"),
       ("año", juegoBackend.getField "añoLanzamiento"),
       ("imagen", (juegoBackend.getField "imagenPortada").orJS (.str "")),
       ("resena", (juegoBackend.getField "descripcion").orJS (.str "")),
       ("genero", juegoBackend.getField "genero"),
       ("plataforma", juegoBackend.getField "plataforma"),
       ("tienda", (juegoBackend.getField "tienda").orJS (.str "")),
       ("desarrollador", (juegoBackend.getField "desarrollador").orJS (.str "")),
       ("completado", .bool (juegoBackend.getField "completado").truthy),
       ("horasJugadas", (juegoBackend.getField "horasJugadas").orJS (.num 0)),
       ("fechaCreacion", fechaCreacion)])

/-- Embedding of `transformarArrayAFrontend` (utils/transformer.js lines
73-76): non-arrays give `[]`; otherwise each record is mapped (a throw in any
record aborts the whole listing) and falsy results are filtered out. -/
def transformarArrayAFrontend (juegosBackend : JSVal) : Except String (List JSVal) :=
  match juegosBackend with
  | .arr js => (js.mapM transformarAFrontend).map (List.filter JSVal.truthy)
  | _ => .ok []

/-- Embedding of `transformarReseniaABackend` (utils/transformer.js lines
83-115): builds the backend review shape and then drops every `undefined`
value, with no exemption for required keys. -/
def transformarReseniaABackend (reseniaFrontend : JSVal) : JSVal :=
  let puntuacion := reseniaFrontend.getField "puntuacion"
  let horas := reseniaFrontend.getField "horasJugadas"
  let recomendaria := reseniaFrontend.getField "recomendaria"
  let reseniaBackend : List (String × JSVal) :=
    [("juegoId", reseniaFrontend.getField "juegoId"),
     ("puntuacion",
       if !puntuacion.isUndefined && !puntuacion.isNull then puntuacion.numberJS
       else .undefined),
     ("textoResena",
       match reseniaFrontend.getField "texto" with
       | .str s => .str (trimJS s)
       | _ => .undefined),
     ("horasJugadas",
       if !horas.isUndefined && !horas.isNull then horas.numberJS else .undefined),
     ("dificultad", reseniaFrontend.getField "dificultad"),
     ("recomendaria",
       if !recomendaria.isUndefined then .bool recomendaria.truthy else .undefined)]
  .obj (reseniaBackend.filter (fun p => !p.2.isUndefined))

/-- Embedding of `transformarReseniaAFrontend` (utils/transformer.js lines
122-152).  The `recomendaria` output is `Boolean(reseniaBackend.recomendaria)`,
so an absent flag maps to `false`. -/
def transformarReseniaAFrontend (reseniaBackend : JSVal) : Except String JSVal :=
  if !reseniaBackend.truthy then .ok .null
  else do
    let id ← (reseniaBackend.getField "_id").toStringJS
    let juegoId ← juegoIdAFrontend (reseniaBackend.getField "juegoId")
    let fechaCreacion ← fechaAFrontend (reseniaBackend.getField "fechaCreacion")
    let fechaActualizacion ← fechaAFrontend (reseniaBackend.getField "fechaActualizacion")
    let puntuacion := reseniaBackend.getField "puntuacion"
    let horas := reseniaBackend.getField "horasJugadas"
    pure (JSVal.obj
      [("id", .str id),
       ("juegoId", juegoId),
       ("puntuacion",
         if !puntuacion.isUndefined && !puntuacion.isNull then puntuacion.numberJS
         else .null),
       ("texto", (reseniaBackend.getField "textoResena").orJS (.str "")),
       ("horasJugadas",
         if !horas.isUndefined && !horas.isNull then horas.numberJS else .null),
       ("dificultad", (reseniaBackend.getField "dificultad").orJS (.str "")),
       ("recomendaria", .bool (reseniaBackend.getField "recomendaria").truthy),
       ("fechaCreacion", fechaCreacion),
       ("fechaActualizacion", fechaActualizacion)])

/-- Default of the `recomendaria` field declared by the review storage schema
(models/resenia.js and the reseña schema: `recomendaria: Boolean, default
true`). -/
def reseniaSchemaRecomendariaDefault : Bool := true

/-- Embedding of the service-layer `transformarAFrontend` (the transformer
module re-exported through src/src/services, lines 435-462): the body runs in
a try/catch that returns `null` on a throw, and every field falls back over
the legacy alias.  `currentYear` stands for `new Date().getFullYear()`. -/
def transformarAFrontendServicios (currentYear : ℚ) (juegoBackend : JSVal) : JSVal :=
  if !juegoBackend.truthy then .null
  else
    let cuerpo : Except String JSVal := do
      let id ←
        if (juegoBackend.getField "_id").truthy then
          (juegoBackend.getField "_id").toStringJS
        else pure ""
      let fechaCreacion ← fechaAFrontend (juegoBackend.getField "fechaCreacion")
      let fechaActualizacion ← fechaAFrontend (juegoBackend.getField "fechaActualizacion")
      pure (JSVal.obj
        [("id", .str id),
         ("nombre",
           ((juegoBackend.getField "nombre").orJS
             (juegoBackend.getField "titulo")).orJS (.str "")),
         ("año",
           ((juegoBackend.getField "año").orJS
             (juegoBackend.getField "añoLanzamiento")).orJS (.num currentYear)),
         ("imagen",
           ((juegoBackend.getField "imagen").orJS
             (juegoBackend.getField "imagenPortada")).orJS (.str "")),
         ("resena",
           ((juegoBackend.getField "resena").orJS
             (juegoBackend.getField "descripcion")).orJS (.str "")),
         ("genero", (juegoBackend.getField "genero").orJS (.str "")),
         ("plataforma", (juegoBackend.getField "plataforma").orJS (.str "")),
         ("tienda", (juegoBackend.getField "tienda").orJS (.str "")),
         ("desarrollador", (juegoBackend.getField "desarrollador").orJS (.str "")),
         ("completado", .bool (juegoBackend.getField "completado").truthy),
         ("horasJugadas",
           ((juegoBackend.getField "horasJugadas").numberJS).orJS (.num 0)),
         ("fechaCreacion", fechaCreacion),
         ("fechaActualizacion", fechaActualizacion)])
    match cuerpo with
    | .ok v => v
    | .error _ => .null

/-! ## Typed data model for the CRUD services and aggregations -/

/-- Stored item (game) record: the fields the embedded operations read.
`anio` stands for the `año` field (Lean identifiers cannot carry the ñ). -/
structure Juego where
  id : ℕ
  nombre : String
  genero : String
  plataforma : String
  anio : ℤ
  completado : Bool
  horasJugadas : ℚ
deriving DecidableEq, Repr

/-- Stored review record: the fields the embedded operations read. -/
structure Resenia where
  id : ℕ
  juegoId : ℕ
  contenido : String
  calificacion : ℤ
  autor : String
deriving DecidableEq, Repr

/-- The document store: the `juegos` and `resenias` collections. -/
structure Store where
  juegos : List Juego
  resenias : List Resenia
deriving DecidableEq, Repr

/-- Error taxonomy surfaced by the embedded operations. -/
inductive ErrorServicio : Type where
  | duplicado : ErrorServicio
  | noEncontrado : ErrorServicio
  | invalido : ErrorServicio
deriving DecidableEq, Repr

/-- Mongoose `Juego.findById`. -/
def findById (db : List Juego) (id : ℕ) : Option Juego :=
  db.find? (fun j => j.id = id)

/-- Mongoose `Resenia.findById`. -/
def findReseniaById (db : List Resenia) (id : ℕ) : Option Resenia :=
  db.find? (fun r => r.id = id)

/-- The case-insensitive full-title match run by the duplicate check
(`new RegExp` of the anchored name with the i flag). -/
def nombresCoinciden (a b : String) : Bool := toLowerJS a = toLowerJS b

/-- Fresh `ObjectId` generation, modelled as one more than the largest id in
the collection (Mongo guarantees a fresh id; this model makes it provable). -/
def freshJuegoId (db : List Juego) : ℕ := (db.map Juego.id).foldr max 0 + 1

/-- Fresh review id, as `freshJuegoId`. -/
def freshReseniaId (db : List Resenia) : ℕ := (db.map Resenia.id).foldr max 0 + 1

/-- Create payload for an item (the fields `JuegoService.crear` persists). -/
structure DatosJuego where
  nombre : String
  genero : String
  plataforma : String
  anio : ℤ
  completado : Bool
  horasJugadas : ℚ
deriving DecidableEq, Repr

namespace JuegoService

/-- Embedding of `JuegoService.crear` (services, lines 138-161): a
case-insensitive title match among all items fails with the duplicate
condition before anything is inserted; otherwise the record is saved with a
fresh id and returned. -/
def crear (db : List Juego) (datos : DatosJuego) : Except ErrorServicio (Juego × List Juego) :=
  if (db.find? (fun j => nombresCoinciden j.nombre datos.nombre)).isSome then
    .error .duplicado
  else
    let nuevoJuego : Juego :=
      { id := freshJuegoId db
        nombre := datos.nombre
        genero := datos.genero
        plataforma := datos.plataforma
        anio := datos.anio
        completado := datos.completado
        horasJugadas := datos.horasJugadas }
    .ok (nuevoJuego, db ++ [nuevoJuego])

/-- Embedding of `JuegoService.obtenerPorId` (services, lines 121-131),
returning the stored record (the frontend presentation step is modelled
separately in the `JSVal` section). -/
def obtenerPorId (db : List Juego) (id : ℕ) : Except ErrorServicio Juego :=
  match findById db id with
  | none => .error .noEncontrado
  | some j => .ok j

/-- Summary returned by a successful delete. -/
structure InfoEliminado where
  id : ℕ
  nombre : String
deriving DecidableEq, Repr

/-- Embedding of `JuegoService.eliminar` (services, lines 208-225) composed
with the controller `eliminarJuego` semantics: `findByIdAndDelete` on the
items collection only; an id that does not resolve fails with the not-found
condition and leaves the store untouched. -/
def eliminar (st : Store) (id : ℕ) : Except ErrorServicio InfoEliminado × Store :=
  match findById st.juegos id with
  | none => (.error .noEncontrado, st)
  | some j =>
    (.ok { id := j.id, nombre := j.nombre },
     { st with juegos := st.juegos.eraseP (fun x => x.id = id) })

end JuegoService

/-- Create payload for a review (the fields `ReseniaService.crear` reads). -/
structure DatosResenia where
  juegoId : ℕ
  contenido : String
  calificacion : ℤ
  autor : Option String
deriving DecidableEq, Repr

namespace ReseniaService

/-- Embedding of `ReseniaService.crear` (the review service, lines 124-162):
the referenced item must resolve before anything else happens; a named,
non-anonymous author may only review an item once; the saved review defaults
the author to Anónimo.  The store is returned alongside the outcome so the
frame of failing runs is explicit. -/
def crear (st : Store) (datos : DatosResenia) : Except ErrorServicio Resenia × Store :=
  match findById st.juegos datos.juegoId with
  | none => (.error .noEncontrado, st)
  | some _ =>
    let autorDuplicado : Bool :=
      match datos.autor with
      | none => false
      | some a =>
        (a != "" && a != "Anónimo") &&
          (st.resenias.find? (fun r => r.juegoId = datos.juegoId && r.autor = a)).isSome
    if autorDuplicado then (.error .duplicado, st)
    else
      let nuevaResenia : Resenia :=
        { id := freshReseniaId st.resenias
          juegoId := datos.juegoId
          contenido := trimJS datos.contenido
          calificacion := datos.calificacion
          autor := (datos.autor).getD "Anónimo" }
      (.ok nuevaResenia, { st with resenias := st.resenias ++ [nuevaResenia] })

end ReseniaService

/-- Embedding of `crearResenia` (funciones/resenias/post.js): the legacy
route handler checks that the referenced item resolves (404) before the
required-field and range checks (400) and before any save.  The legacy body
fields comentario / puntuacion / nombreUsuario are mapped onto the review
record fields. -/
def crearResenia (st : Store) (juegoId : ℕ) (comentario : Option String)
    (puntuacion : Option ℤ) (nombreUsuario : Option String) :
    Except ErrorServicio Resenia × Store :=
  match findById st.juegos juegoId with
  | none => (.error .noEncontrado, st)
  | some _ =>
    let faltanDatos :=
      comentario.getD "" = "" || puntuacion.getD 0 = 0 || nombreUsuario.getD "" = ""
    if faltanDatos then (.error .invalido, st)
    else if puntuacion.getD 0 < 1 || 5 < puntuacion.getD 0 then (.error .invalido, st)
    else
      let nuevaResenia : Resenia :=
        { id := freshReseniaId st.resenias
          juegoId := juegoId
          contenido := comentario.getD ""
          calificacion := puntuacion.getD 0
          autor := nombreUsuario.getD "" }
      (.ok nuevaResenia, { st with resenias := st.resenias ++ [nuevaResenia] })

/-! ## Aggregation engine -/

/-- Mongo `$round` to one decimal place. -/
def round1 (q : ℚ) : ℚ := (round (q * 10) : ℚ) / 10

/-- Result shape of the entity-totals aggregation (the fields of the
`$project` stage the claims inspect; the image-percentage and year-extrema
outputs are independent of the modelled ones and are omitted). -/
structure EstadisticasJuegos where
  totalJuegos : ℕ
  juegsCompletados : ℕ
  juegosPendientes : ℤ
  horasTotales : ℚ
  promedioHoras : ℚ
  porcentajeCompletado : ℚ
deriving DecidableEq, Repr

/-- Count of completed items (`$sum` of `$cond` on completado). -/
def contarCompletados (juegos : List Juego) : ℕ :=
  (juegos.filter Juego.completado).length

/-- Embedding of `obtenerEstadisticasJuegos` (estadisticasService.js lines
71-124): a single `$group` over the whole collection followed by a
`$project`; an empty collection produces no group at all, and the
`estadisticas[0] || ...` fallback supplies the all-zero record, which is the
division-by-zero guard for the percentage. -/
def obtenerEstadisticasJuegos (juegos : List Juego) : EstadisticasJuegos :=
  if juegos.isEmpty then
    { totalJuegos := 0
      juegsCompletados := 0
      juegosPendientes := 0
      horasTotales := 0
      promedioHoras := 0
      porcentajeCompletado := 0 }
  else
    let total := juegos.length
    let completados := contarCompletados juegos
    let horas := (juegos.map Juego.horasJugadas).sum
    { totalJuegos := total
      juegsCompletados := completados
      juegosPendientes := (total : ℤ) - (completados : ℤ)
      horasTotales := round1 horas
      promedioHoras := round1 (horas / (total : ℚ))
      porcentajeCompletado := round1 ((completados : ℚ) / (total : ℚ) * 100) }

/-- Ranking order of `obtenerJuegosMasJugados`: more usage hours first. -/
def masHoras (a b : Juego) : Prop := b.horasJugadas ≤ a.horasJugadas

instance : DecidableRel masHoras :=
  fun a b => inferInstanceAs (Decidable (b.horasJugadas ≤ a.horasJugadas))

instance : IsTotal Juego masHoras := ⟨fun a b => le_total b.horasJugadas a.horasJugadas⟩

instance : IsTrans Juego masHoras := ⟨fun _ _ _ h1 h2 => le_trans h2 h1⟩

/-- Embedding of `obtenerJuegosMasJugados` (estadisticasService.js lines
294-305): `find` on horasJugadas strictly positive, sort descending by
horasJugadas (modelled by a stable insertion sort), then limit. -/
def obtenerJuegosMasJugados (juegos : List Juego) (limite : ℕ) : List Juego :=
  ((juegos.filter (fun j => 0 < j.horasJugadas)).insertionSort masHoras).take limite

/-! ## Query/filter builder: pagination and sort -/

/-- JS `parseInt` on a string: leading whitespace skipped, optional sign,
then the leading run of digits; no digits gives `NaN` (modelled as `none`). -/
def parseIntJS (s : String) : Option ℤ :=
  let resto0 := s.data.dropWhile Char.isWhitespace
  let sgn : ℤ := match resto0 with
    | '-' :: _ => -1
    | _ => 1
  let resto : List Char := match resto0 with
    | '-' :: r => r
    | '+' :: r => r
    | r => r
  let digitos := resto.takeWhile Char.isDigit
  if digitos.isEmpty then none
  else some (sgn * (digitos.foldl (fun n c => 10 * n + (c.toNat - 48)) 0 : ℕ))

/-- Failure conditions of the pagination validator (both reported as a 400
InvalidArgument at the boundary). -/
inductive ErrorValidacion : Type where
  | paginaInvalida : ErrorValidacion
  | limiteInvalido : ErrorValidacion
deriving DecidableEq, Repr

/-- Validated pagination parameters (`req.paginacion`). -/
structure Paginacion where
  pagina : ℤ
  limite : ℤ
  skip : ℤ
deriving DecidableEq, Repr

/-- A query parameter as `parseInt` sees it, with the destructuring default
applied when the parameter is absent. -/
def parseParam : Option String → ℤ → Option ℤ
  | none, porDefecto => some porDefecto
  | some s, _ => parseIntJS s

/-- Embedding of `validarPaginacion` (validation middleware): query
parameters default to page 1 / size 10 when absent; a non-numeric or
below-1 page fails first, then a non-numeric, below-1 or above-100 size
fails; otherwise skip is (pagina-1)·limite. -/
def validarPaginacion (pagina limite : Option String) : Except ErrorValidacion Paginacion :=
  match parseParam pagina 1 with
  | none => .error .paginaInvalida
  | some p =>
    if p < 1 then .error .paginaInvalida
    else
      match parseParam limite 10 with
      | none => .error .limiteInvalido
      | some l =>
        if l < 1 || 100 < l then .error .limiteInvalido
        else .ok { pagina := p, limite := l, skip := (p - 1) * l }

/-- Page slice produced by `JuegoService.obtenerTodos` (services lines
89-96): skip (pagina-1)·limite records of the sorted result, then take
limite; modelled for the validated range pagina ≥ 1. -/
def obtenerTodosPagina (juegos : List Juego) (pagina limite : ℕ) : List Juego :=
  (juegos.drop ((pagina - 1) * limite)).take limite

/-- Total-pages metadata of `JuegoService.obtenerTodos` (services line 105):
`Math.ceil(total / limite)`. -/
def totalPaginas (total limite : ℕ) : ℤ := ⌈(total : ℚ) / (limite : ℚ)⌉

/-- Allow-list of sortable fields in the legacy controller
(juegoController.js line 67). -/
def ordenamientoValido : List String :=
  ["nombre", "año", "fechaCreacion", "genero", "plataforma"]

/-- A Mongo sort specification: field and direction (1 asc / -1 desc). -/
structure EspecOrden where
  campo : String
  direccion : ℤ
deriving DecidableEq, Repr

/-- Sort specification applied by the legacy controller
`obtenerTodosLosJuegos` (juegoController.js lines 66-71): the caller-supplied
field is applied only when it is in the allow-list; defaults are
fechaCreacion / desc. -/
def ordenObtenerTodosLosJuegos (ordenarPor orden : String) : Option EspecOrden :=
  if ordenamientoValido.contains ordenarPor then
    some { campo := ordenarPor, direccion := if orden = "asc" then 1 else -1 }
  else none

/-- Sort specification applied by `JuegoService.obtenerTodos` (services
lines 93-96): the caller-supplied field is applied unconditionally, with no
allow-list check; defaults are fechaCreacion / desc. -/
def ordenObtenerTodos (ordenarPor orden : String) : Option EspecOrden :=
  some { campo := ordenarPor, direccion := if orden = "asc" then 1 else -1 }

/-! ## Concrete records used by the witnesses -/

/-- Sample stored item. -/
def juegoEjemplo (id : ℕ) (nombre : String) (horas : ℚ) : Juego :=
  { id := id
    nombre := nombre
    genero := "RPG"
    plataforma := "PC"
    anio := 2017
    completado := false
    horasJugadas := horas }

/-- Sample create payload. -/
def datosEjemplo (nombre : String) : DatosJuego :=
  { nombre := nombre
    genero := "RPG"
    plataforma := "PC"
    anio := 2017
    completado := false
    horasJugadas := 0 }

/-- Sample stored review. -/
def reseniaEjemplo : Resenia :=
  { id := 1, juegoId := 1, contenido := "muy bueno", calificacion := 5, autor := "Ana" }

/-- Sample store with one item and one review. -/
def storeEjemplo : Store :=
  { juegos := [juegoEjemplo 1 "Zelda" 5], resenias := [reseniaEjemplo] }

/-- Sample store with two items and one review. -/
def storeEjemplo2 : Store :=
  { juegos := [juegoEjemplo 1 "Zelda" 5, juegoEjemplo 2 "Mario" 3]
    resenias := [reseniaEjemplo] }

/-- Twenty-five pairwise distinct stored items, for the pagination scenario. -/
def lista25 : List Juego := (List.range 25).map (fun i => juegoEjemplo i "x" 0)

/-- A minimal well-formed stored item record (`_id` present). -/
def registroValido : JSVal := .obj [("_id", .str "a1")]

/-- The frontend shape `transformarAFrontend` produces for `registroValido`. -/
def salidaRegistroValido : JSVal :=
  .obj [("id", .str "a1"),
        ("nombre", .undefined),
        ("año", .undefined),
        ("imagen", .str ""),
        ("resena", .str ""),
        ("genero", .undefined),
        ("plataforma", .undefined),
        ("tienda", .str ""),
        ("desarrollador", .str ""),
        ("completado", .bool false),
        ("horasJugadas", .num 0),
        ("fechaCreacion", .null)]

/-- A stored review record with no `recomendaria` key. -/
def registroResenia : List (String × JSVal) := [("_id", .str "r1")]

/-- The frontend shape `transformarReseniaAFrontend` produces for
`registroResenia`. -/
def salidaResenia : JSVal :=
  .obj [("id", .str "r1"),
        ("juegoId", .str ""),
        ("puntuacion", .null),
        ("texto", .str ""),
        ("horasJugadas", .null),
        ("dificultad", .str ""),
        ("recomendaria", .bool false),
        ("fechaCreacion", .null),
        ("fechaActualizacion", .null)]

/-- The record `JuegoService.crear` persists on the success path (named so
the create/read round-trip can be stated). -/
def juegoNuevo (db : List Juego) (datos : DatosJuego) : Juego :=
  { id := freshJuegoId db
    nombre := datos.nombre
    genero := datos.genero
    plataforma := datos.plataforma
    anio := datos.anio
    completado := datos.completado
    horasJugadas := datos.horasJugadas }

/-! ## Helper lemmas -/

theorem round1_nonneg {q : ℚ} (h : 0 ≤ q) : 0 ≤ round1 q := by
  unfold round1
  have h1 : (0 : ℤ) ≤ round (q * 10) := by
    rw [round_eq]
    exact Int.le_floor.mpr (by push_cast; linarith)
  have h2 : (0 : ℚ) ≤ (round (q * 10) : ℚ) := by exact_mod_cast h1
  linarith

theorem round1_le_100 {q : ℚ} (h : q ≤ 100) : round1 q ≤ 100 := by
  unfold round1
  have h1 : round (q * 10) ≤ (1000 : ℤ) := by
    rw [round_eq]
    have h2 : (⌊q * 10 + 1 / 2⌋ : ℤ) ≤ ⌊(1000 : ℚ) + 1 / 2⌋ :=
      Int.floor_le_floor (by linarith)
    have h3 : (⌊(1000 : ℚ) + 1 / 2⌋ : ℤ) = 1000 := by
      rw [Int.floor_eq_iff]
      constructor <;> push_cast <;> norm_num
    omega
  have h4 : ((round (q * 10) : ℤ) : ℚ) ≤ 1000 := by exact_mod_cast h1
  linarith

theorem contarCompletados_le (juegos : List Juego) :
    contarCompletados juegos ≤ juegos.length :=
  List.length_filter_le _ _

/-- Claim C1: in the entity-totals aggregation, the reported completion
percentage equals completados/total · 100 rounded to one decimal, always
lies in [0, 100], and is exactly 0 (a plain value, not a division error)
when the collection is empty. -/
theorem porcentajeCompletado_en_rango (juegos : List Juego) :
    0 ≤ (obtenerEstadisticasJuegos juegos).porcentajeCompletado ∧
    (obtenerEstadisticasJuegos juegos).porcentajeCompletado ≤ 100 ∧
    (juegos.length = 0 →
      (obtenerEstadisticasJuegos juegos).porcentajeCompletado = 0) ∧
    (juegos.length ≠ 0 →
      (obtenerEstadisticasJuegos juegos).porcentajeCompletado =
        round1 ((contarCompletados juegos : ℚ) / (juegos.length : ℚ) * 100)) := by
  by_cases h : juegos = []
  · subst h
    refine ⟨le_refl 0, ?_, fun _ => rfl, fun hc => absurd rfl hc⟩
    rw [show (obtenerEstadisticasJuegos ([] : List Juego)).porcentajeCompletado = (0 : ℚ) from rfl]
    norm_num
  · have hne : juegos.isEmpty = false := by
      simp [List.isEmpty_iff, h]
    have hlen : 0 < juegos.length := List.length_pos.mpr h
    have hq0 : (0 : ℚ) < (juegos.length : ℚ) := by exact_mod_cast hlen
    have hcle : (contarCompletados juegos : ℚ) ≤ (juegos.length : ℚ) := by
      exact_mod_cast contarCompletados_le juegos
    have hratio0 : 0 ≤ (contarCompletados juegos : ℚ) / (juegos.length : ℚ) * 100 := by
      positivity
    have hratio1 : (contarCompletados juegos : ℚ) / (juegos.length : ℚ) * 100 ≤ 100 := by
      have := (div_le_one hq0).mpr hcle
      linarith
    have hval : (obtenerEstadisticasJuegos juegos).porcentajeCompletado =
        round1 ((contarCompletados juegos : ℚ) / (juegos.length : ℚ) * 100) := by
      rw [obtenerEstadisticasJuegos, hne]
      rfl
    refine ⟨?_, ?_, fun hc => absurd hc (by omega), fun _ => hval⟩
    · rw [hval]; exact round1_nonneg hratio0
    · rw [hval]; exact round1_le_100 hratio1

/-- Witness for C1 at the empty collection and at a singleton collection. -/
theorem porcentajeCompletado_en_rango_witness :
    (obtenerEstadisticasJuegos []).porcentajeCompletado = 0 ∧
    (obtenerEstadisticasJuegos [juegoEjemplo 1 "Zelda" 5]).porcentajeCompletado =
      round1 ((contarCompletados [juegoEjemplo 1 "Zelda" 5] : ℚ) /
        (([juegoEjemplo 1 "Zelda" 5] : List Juego).length : ℚ) * 100) :=
  ⟨(porcentajeCompletado_en_rango []).2.2.1 rfl,
   (porcentajeCompletado_en_rango [juegoEjemplo 1 "Zelda" 5]).2.2.2 (by decide)⟩

theorem id_le_maxId (db : List Juego) :
    ∀ j ∈ db, j.id ≤ (db.map Juego.id).foldr max 0 := by
  induction db with
  | nil => intro j hj; cases hj
  | cons a t ih =>
    intro j hj
    rcases List.mem_cons.mp hj with rfl | hj
    · exact le_max_left _ _
    · exact le_trans (ih j hj) (le_max_right _ _)

/-- Claim C2: creating an item whose title case-insensitively matches an
existing title fails with the duplicate condition before any insert; a
unique title succeeds and the returned id resolves via read-by-id. -/
theorem crearJuego_unicidad :
    (∀ db datos, (∃ j ∈ db, nombresCoinciden j.nombre datos.nombre = true) →
      JuegoService.crear db datos = .error .duplicado) ∧
    (∀ db datos, (∀ j ∈ db, nombresCoinciden j.nombre datos.nombre = false) →
      ∃ nuevo db2, JuegoService.crear db datos = .ok (nuevo, db2) ∧
        JuegoService.obtenerPorId db2 nuevo.id = .ok nuevo) := by
  constructor
  · intro db datos h
    have hfind : (db.find? (fun j => nombresCoinciden j.nombre datos.nombre)).isSome := by
      rcases h with ⟨j, hj, hc⟩
      exact List.find?_isSome.mpr ⟨j, hj, hc⟩
    rw [JuegoService.crear, if_pos hfind]
  · intro db datos h
    have hfind : db.find? (fun j => nombresCoinciden j.nombre datos.nombre) = none :=
      List.find?_eq_none.mpr (fun j hj => by simp [h j hj])
    refine ⟨juegoNuevo db datos, db ++ [juegoNuevo db datos], ?_, ?_⟩
    · rw [JuegoService.crear, if_neg (by simp [hfind])]
      rfl
    · rw [JuegoService.obtenerPorId, findById, List.find?_append]
      have h1 : db.find? (fun j => j.id = (juegoNuevo db datos).id) = none := by
        refine List.find?_eq_none.mpr (fun j hj => ?_)
        have h2 := id_le_maxId db j hj
        simp only [juegoNuevo, freshJuegoId, decide_eq_true_eq]
        omega
      rw [h1]
      simp [juegoNuevo]

/-- Witness for C2: a duplicate differing only in case is rejected; insert
into the empty store succeeds and resolves. -/
theorem crearJuego_unicidad_witness :
    JuegoService.crear [juegoEjemplo 1 "Zelda" 5] (datosEjemplo "ZELDA") =
      .error .duplicado ∧
    ∃ nuevo db2, JuegoService.crear [] (datosEjemplo "Mario") = .ok (nuevo, db2) ∧
      JuegoService.obtenerPorId db2 nuevo.id = .ok nuevo :=
  ⟨crearJuego_unicidad.1 [juegoEjemplo 1 "Zelda" 5] (datosEjemplo "ZELDA")
      ⟨juegoEjemplo 1 "Zelda" 5, by decide, by decide⟩,
   crearJuego_unicidad.2 [] (datosEjemplo "Mario") (by decide)⟩

/-- Claim C3: a create-review request whose referenced item id does not
resolve fails with the not-found condition and leaves the store (in
particular the review collection) unchanged, in the review service and in
the legacy route handler alike. -/
theorem crearResenia_juego_inexistente :
    ∀ st (datos : DatosResenia) (comentario : Option String)
      (puntuacion : Option ℤ) (nombreUsuario : Option String),
      findById st.juegos datos.juegoId = none →
      ReseniaService.crear st datos = (.error .noEncontrado, st) ∧
      crearResenia st datos.juegoId comentario puntuacion nombreUsuario =
        (.error .noEncontrado, st) := by
  intro st datos comentario puntuacion nombreUsuario h
  constructor
  · rw [ReseniaService.crear, h]
  · rw [crearResenia, h]

/-- Witness for C3 at a store whose only item has id 1 and a review
referencing id 2. -/
theorem crearResenia_juego_inexistente_witness :
    ReseniaService.crear storeEjemplo (DatosResenia.mk 2 "texto" 4 (some "Ana")) =
      (.error .noEncontrado, storeEjemplo) ∧
    crearResenia storeEjemplo 2 (some "texto") (some 4) (some "Ana") =
      (.error .noEncontrado, storeEjemplo) :=
  crearResenia_juego_inexistente storeEjemplo (DatosResenia.mk 2 "texto" 4 (some "Ana"))
    (some "texto") (some 4) (some "Ana") (by decide)

/-- Claim C9: deleting an item removes only that item; the review collection
is left unchanged and every review remains queryable by id (no cascade
delete). -/
theorem eliminarJuego_sin_cascada :
    ∀ st id,
      (JuegoService.eliminar st id).2.resenias = st.resenias ∧
      (∀ rid, findReseniaById (JuegoService.eliminar st id).2.resenias rid =
        findReseniaById st.resenias rid) ∧
      (∀ j ∈ st.juegos, j.id ≠ id → j ∈ (JuegoService.eliminar st id).2.juegos) ∧
      (∀ j ∈ (JuegoService.eliminar st id).2.juegos, j ∈ st.juegos) := by
  intro st id
  cases hf : findById st.juegos id with
  | none =>
    simp only [JuegoService.eliminar, hf]
    exact ⟨trivial, fun _ => trivial, fun j hj _ => hj, fun j hj => hj⟩
  | some j =>
    simp only [JuegoService.eliminar, hf]
    refine ⟨trivial, fun _ => trivial, ?_, ?_⟩
    · intro j2 hj2 hne
      exact (List.mem_eraseP_of_neg (by simp [hne])).mpr hj2
    · intro j2 hj2
      exact List.Sublist.mem hj2 (List.eraseP_sublist _)

/-- Witness for C9: deleting item 1 from the two-item store keeps the review
collection and keeps item 2. -/
theorem eliminarJuego_sin_cascada_witness :
    (JuegoService.eliminar storeEjemplo2 1).2.resenias = storeEjemplo2.resenias ∧
    juegoEjemplo 2 "Mario" 3 ∈ (JuegoService.eliminar storeEjemplo2 1).2.juegos :=
  ⟨(eliminarJuego_sin_cascada storeEjemplo2 1).1,
   (eliminarJuego_sin_cascada storeEjemplo2 1).2.2.1 (juegoEjemplo 2 "Mario" 3)
     (by decide) (by decide)⟩

/-- Claim C8: the top-N-by-usage-hours ranking contains only items with
strictly positive hours, is ordered by hours descending, is the whole
positive-hours set whenever that set fits in N, and on hours [0, 5, 10] with
N = 2 returns the 10-hour item then the 5-hour item. -/
theorem juegosMasJugados_ranking :
    (∀ juegos limite j, j ∈ obtenerJuegosMasJugados juegos limite →
      j ∈ juegos ∧ 0 < j.horasJugadas) ∧
    (∀ juegos limite, (obtenerJuegosMasJugados juegos limite).Sorted masHoras) ∧
    (∀ juegos limite,
      (juegos.filter (fun j => 0 < j.horasJugadas)).length ≤ limite →
      (obtenerJuegosMasJugados juegos limite).Perm
        (juegos.filter (fun j => 0 < j.horasJugadas))) ∧
    obtenerJuegosMasJugados
        [juegoEjemplo 1 "a" 0, juegoEjemplo 2 "b" 5, juegoEjemplo 3 "c" 10] 2 =
      [juegoEjemplo 3 "c" 10, juegoEjemplo 2 "b" 5] := by
  refine ⟨?_, ?_, ?_, by decide⟩
  · intro juegos limite j hj
    have h1 : j ∈ (juegos.filter (fun j => 0 < j.horasJugadas)).insertionSort masHoras :=
      List.mem_of_mem_take hj
    have h2 : j ∈ juegos.filter (fun j => 0 < j.horasJugadas) :=
      (List.perm_insertionSort masHoras _).mem_iff.mp h1
    rcases List.mem_filter.mp h2 with ⟨hmem, hpos⟩
    exact ⟨hmem, by simpa using hpos⟩
  · intro juegos limite
    exact List.Pairwise.sublist (List.take_sublist _ _)
      (List.sorted_insertionSort masHoras _)
  · intro juegos limite h
    have hlen : ((juegos.filter (fun j => 0 < j.horasJugadas)).insertionSort masHoras).length ≤ limite := by
      rw [(List.perm_insertionSort masHoras _).length_eq]
      exact h
    rw [obtenerJuegosMasJugados, List.take_of_length_le hlen]
    exact List.perm_insertionSort masHoras _

/-- Witness for C8: membership and the no-truncation permutation at a
concrete two-item store. -/
theorem juegosMasJugados_ranking_witness :
    (juegoEjemplo 2 "b" 5 ∈ [juegoEjemplo 1 "a" 0, juegoEjemplo 2 "b" 5] ∧
      0 < (juegoEjemplo 2 "b" 5).horasJugadas) ∧
    (obtenerJuegosMasJugados [juegoEjemplo 1 "a" 0, juegoEjemplo 2 "b" 5] 10).Perm
      ([juegoEjemplo 1 "a" 0, juegoEjemplo 2 "b" 5].filter
        (fun j => 0 < j.horasJugadas)) :=
  ⟨juegosMasJugados_ranking.1 [juegoEjemplo 1 "a" 0, juegoEjemplo 2 "b" 5] 10
      (juegoEjemplo 2 "b" 5) (by decide),
   juegosMasJugados_ranking.2.2.1 [juegoEjemplo 1 "a" 0, juegoEjemplo 2 "b" 5] 10
      (by decide)⟩

/-- Claim C6 counterexample: a requested page size of 150 is rejected by the
pagination validator with an error, not clamped down to the maximum of 100
as the claim states. -/
theorem validarPaginacion_limite_150 :
    validarPaginacion (some "1") (some "150") = .error .limiteInvalido := rfl

/-- Claim C6 (amended): a validated request has skip = (pagina-1)·limite
with pagina ≥ 1 and 1 ≤ limite ≤ 100; a non-numeric or below-1 page is
rejected with the page error (an InvalidArgument at the boundary); the
listing metadata is ceil(total/limite) pages, and on a 25-item collection
page 2 of size 10 has 10 items disjoint from page 1. -/
theorem validarPaginacion_correcta :
    (∀ pagina limite r, validarPaginacion pagina limite = .ok r →
      r.skip = (r.pagina - 1) * r.limite ∧ 1 ≤ r.pagina ∧
        1 ≤ r.limite ∧ r.limite ≤ 100) ∧
    (∀ s limite, (parseIntJS s = none ∨ ∃ p, parseIntJS s = some p ∧ p < 1) →
      validarPaginacion (some s) limite = .error .paginaInvalida) ∧
    totalPaginas 25 10 = 3 ∧
    (∀ juegos : List Juego, juegos.Nodup → juegos.length = 25 →
      (obtenerTodosPagina juegos 2 10).length = 10 ∧
      (obtenerTodosPagina juegos 1 10).Disjoint (obtenerTodosPagina juegos 2 10)) := by
  refine ⟨?_, ?_, ?_, ?_⟩
  · intro pagina limite r h
    unfold validarPaginacion at h
    cases hp : parseParam pagina 1 with
    | none =>
      simp only [hp] at h
      exact Except.noConfusion h
    | some p =>
      simp only [hp] at h
      by_cases hp1 : p < 1
      · simp only [if_pos hp1] at h
        exact Except.noConfusion h
      · simp only [if_neg hp1] at h
        cases hl : parseParam limite 10 with
        | none =>
          simp only [hl] at h
          exact Except.noConfusion h
        | some l =>
          simp only [hl] at h
          by_cases hl1 : (decide (l < 1) || decide (100 < l)) = true
          · rw [if_pos hl1] at h
            exact Except.noConfusion h
          · rw [if_neg hl1] at h
            cases h
            simp only [Bool.or_eq_true, decide_eq_true_eq, not_or, not_lt] at hl1
            refine ⟨rfl, ?_, ?_, ?_⟩ <;> dsimp only <;> omega
  · intro s limite h
    rcases h with h | ⟨p, hp, hlt⟩
    · unfold validarPaginacion
      simp only [parseParam, h]
    · unfold validarPaginacion
      simp only [parseParam, hp, if_pos hlt]
  · rw [totalPaginas, Int.ceil_eq_iff]
    constructor <;> push_cast <;> norm_num
  · intro juegos hnd hlen
    constructor
    · rw [obtenerTodosPagina]
      rw [List.length_take, List.length_drop, hlen]
      norm_num
    · intro a ha1 ha2
      have h1 : a ∈ juegos.take 10 := by
        have he : obtenerTodosPagina juegos 1 10 = juegos.take 10 := rfl
        rwa [he] at ha1
      have h2 : a ∈ juegos.drop 10 := by
        have he : obtenerTodosPagina juegos 2 10 = (juegos.drop 10).take 10 := rfl
        rw [he] at ha2
        exact List.mem_of_mem_take ha2
      exact List.disjoint_take_drop hnd (le_refl 10) h1 h2

/-- Witness for C6: a valid request for page 2 of size 10, a rejected page
0, and the concrete 25-item pagination scenario. -/
theorem validarPaginacion_correcta_witness :
    ((Paginacion.mk 2 10 10).skip =
        ((Paginacion.mk 2 10 10).pagina - 1) * (Paginacion.mk 2 10 10).limite ∧
      1 ≤ (Paginacion.mk 2 10 10).pagina ∧ 1 ≤ (Paginacion.mk 2 10 10).limite ∧
      (Paginacion.mk 2 10 10).limite ≤ 100) ∧
    validarPaginacion (some "0") (some "5") = .error .paginaInvalida ∧
    ((obtenerTodosPagina lista25 2 10).length = 10 ∧
      (obtenerTodosPagina lista25 1 10).Disjoint (obtenerTodosPagina lista25 2 10)) :=
  ⟨validarPaginacion_correcta.1 (some "2") (some "10") (Paginacion.mk 2 10 10) rfl,
   validarPaginacion_correcta.2.1 "0" (some "5") (Or.inr ⟨0, rfl, by norm_num⟩),
   validarPaginacion_correcta.2.2.2 lista25 (by decide) (by decide)⟩

/-- Claim C7 counterexample: the service listing builds a sort on
horasJugadas, a field outside the allow-list, so the allow-list check is not
applied on every listing request. -/
theorem ordenObtenerTodos_sin_lista :
    ordenObtenerTodos "horasJugadas" "desc" =
      some (EspecOrden.mk "horasJugadas" (-1)) ∧
    ordenamientoValido.contains "horasJugadas" = false := ⟨rfl, rfl⟩

/-- Claim C7 (amended): the legacy controller listing checks the sort field
against the allow-list and skips sorting otherwise, defaulting to
fechaCreacion descending; the service listing applies the caller-supplied
field unconditionally, also defaulting to fechaCreacion descending. -/
theorem orden_lista_permitida :
    (∀ campo orden, ordenamientoValido.contains campo = false →
      ordenObtenerTodosLosJuegos campo orden = none) ∧
    (∀ campo orden, ordenamientoValido.contains campo = true →
      ordenObtenerTodosLosJuegos campo orden =
        some (EspecOrden.mk campo (if orden = "asc" then 1 else -1))) ∧
    ordenObtenerTodosLosJuegos "fechaCreacion" "desc" =
      some (EspecOrden.mk "fechaCreacion" (-1)) ∧
    (∀ campo orden, ordenObtenerTodos campo orden =
      some (EspecOrden.mk campo (if orden = "asc" then 1 else -1))) ∧
    ordenObtenerTodos "fechaCreacion" "desc" =
      some (EspecOrden.mk "fechaCreacion" (-1)) := by
  refine ⟨?_, ?_, by decide, fun campo orden => rfl, rfl⟩
  · intro campo orden h
    rw [ordenObtenerTodosLosJuegos, h]
    rfl
  · intro campo orden h
    rw [ordenObtenerTodosLosJuegos, h]
    rfl

/-- Witness for C7: a non-allow-listed field is skipped by the controller,
an allow-listed one is applied. -/
theorem orden_lista_permitida_witness :
    ordenObtenerTodosLosJuegos "horasJugadas" "asc" = none ∧
    ordenObtenerTodosLosJuegos "nombre" "asc" =
      some (EspecOrden.mk "nombre" (if "asc" = "asc" then 1 else -1)) :=
  ⟨orden_lista_permitida.1 "horasJugadas" "asc" rfl,
   orden_lista_permitida.2.1 "nombre" "asc" rfl⟩

theorem buscarCampo_filtrado (fs : List (String × JSVal))
    (pred : String × JSVal → Bool) (k : String) (x : JSVal)
    (h : buscarCampo (.obj (fs.filter pred)) k = some x) :
    ∃ e, e ∈ fs ∧ pred e = true ∧ e.1 = k ∧ e.2 = x := by
  simp only [buscarCampo] at h
  rcases hf : (fs.filter pred).find? (fun p => p.1 = k) with _ | e
  · rw [hf] at h
    cases h
  · rw [hf] at h
    simp only [Option.map_some', Option.some.injEq] at h
    have hkey := List.find?_some hf
    have hmem := List.mem_of_find?_eq_some hf
    rcases List.mem_filter.mp hmem with ⟨hin, hpred⟩
    exact ⟨e, hin, hpred, by simpa using hkey, h⟩

theorem buscarCampo_filtrado_presente (fs : List (String × JSVal))
    (pred : String × JSVal → Bool) (k : String) (e : String × JSVal)
    (hin : e ∈ fs) (hpred : pred e = true) (hkey : e.1 = k) :
    tieneCampo (.obj (fs.filter pred)) k = true := by
  have hmapSome : ∀ o : Option (String × JSVal), (o.map Prod.snd).isSome = o.isSome :=
    fun o => by cases o <;> rfl
  simp only [tieneCampo, buscarCampo, hmapSome]
  rw [List.find?_isSome]
  exact ⟨e, List.mem_filter.mpr ⟨hin, hpred⟩, by simp [hkey]⟩

/-- Claim C4 counterexample: mapping an empty review payload omits the
required juegoId key entirely, though the claim says the required review
fields are always included in the output even when undefined. -/
theorem transformarReseniaABackend_omite_juegoId :
    tieneCampo (transformarReseniaABackend (JSVal.obj [])) "juegoId" = false := rfl

/-- Claim C4 (amended): the item mapper always includes titulo, genero and
plataforma even when undefined and never emits an undefined value at any
other key; the review mapper instead drops every undefined field from its
output, the required juegoId / puntuacion / textoResena included. -/
theorem transformador_campos_requeridos :
    (∀ v, ∀ k ∈ camposRequeridosJuego, tieneCampo (transformarABackend v) k = true) ∧
    (∀ v k, k ∉ camposRequeridosJuego →
      buscarCampo (transformarABackend v) k ≠ some JSVal.undefined) ∧
    (∀ v k, buscarCampo (transformarReseniaABackend v) k ≠ some JSVal.undefined) := by
  refine ⟨?_, ?_, ?_⟩
  · intro v k hk
    simp only [camposRequeridosJuego, List.mem_cons, List.not_mem_nil, or_false] at hk
    simp only [transformarABackend]
    rcases hk with rfl | rfl | rfl
    · exact buscarCampo_filtrado_presente _ _ _ ("titulo", v.getField "nombre")
        (by simp) (by simp [camposRequeridosJuego]) rfl
    · exact buscarCampo_filtrado_presente _ _ _ ("genero", v.getField "genero")
        (by simp) (by simp [camposRequeridosJuego]) rfl
    · exact buscarCampo_filtrado_presente _ _ _ ("plataforma", v.getField "plataforma")
        (by simp) (by simp [camposRequeridosJuego]) rfl
  · intro v k hk hcontra
    simp only [transformarABackend] at hcontra
    obtain ⟨e, hin, hpred, hkey, hval⟩ := buscarCampo_filtrado _ _ _ _ hcontra
    rw [hval] at hpred
    simp only [JSVal.isUndefined, Bool.not_true, Bool.or_false,
      decide_eq_true_eq] at hpred
    rw [hkey] at hpred
    exact hk hpred
  · intro v k hcontra
    simp only [transformarReseniaABackend] at hcontra
    obtain ⟨e, hin, hpred, hkey, hval⟩ := buscarCampo_filtrado _ _ _ _ hcontra
    rw [hval] at hpred
    simp only [JSVal.isUndefined, Bool.not_true] at hpred
    cases hpred

/-- Witness for C4 at the empty item and review payloads. -/
theorem transformador_campos_requeridos_witness :
    tieneCampo (transformarABackend (JSVal.obj [])) "titulo" = true ∧
    buscarCampo (transformarABackend (JSVal.obj [])) "añoLanzamiento" ≠
      some JSVal.undefined ∧
    buscarCampo (transformarReseniaABackend (JSVal.obj [])) "puntuacion" ≠
      some JSVal.undefined :=
  ⟨transformador_campos_requeridos.1 (JSVal.obj []) "titulo" (by decide),
   transformador_campos_requeridos.2.1 (JSVal.obj []) "añoLanzamiento" (by decide),
   transformador_campos_requeridos.2.2 (JSVal.obj []) "puntuacion"⟩

theorem bindOk {α β ε : Type} (f : α → Except ε β) (a : α) :
    (Except.ok a >>= f) = f a := rfl

theorem bindErr {α β ε : Type} (f : α → Except ε β) (e : ε) :
    (Except.error e >>= f) = Except.error e := rfl

theorem transformarAFrontend_registroValido :
    transformarAFrontend registroValido = .ok salidaRegistroValido := rfl

/-- Claim C5 counterexample: a truthy non-object record (the number 5) makes
the frontend-bound mapper throw a TypeError rather than return null. -/
theorem transformarAFrontend_numero :
    transformarAFrontend (JSVal.num 5) =
      .error "TypeError: toString of undefined" := rfl

/-- Claim C5 (amended): a falsy malformed record (null/undefined and the
other falsy primitives) maps to null and is filtered out of array listings,
so the remaining records still map; a truthy non-object record instead makes
the mapper throw, and the service-layer variant returns a defaulted object
rather than null for it. -/
theorem transformarAFrontend_entradas_malformadas :
    (∀ v, v.truthy = false → transformarAFrontend v = .ok .null) ∧
    (∀ v, v.truthy = false →
      transformarArrayAFrontend (.arr [registroValido, v, registroValido]) =
        .ok [salidaRegistroValido, salidaRegistroValido]) ∧
    (∀ v, v.truthy = true → (∀ fs, v ≠ JSVal.obj fs) →
      transformarAFrontend v = .error "TypeError: toString of undefined") ∧
    (∀ y v, v.truthy = false → transformarAFrontendServicios y v = .null) ∧
    (∃ fs, transformarAFrontendServicios 2024 (JSVal.num 5) = .obj fs) := by
  refine ⟨?_, ?_, ?_, ?_, ⟨_, rfl⟩⟩
  · intro v h
    rw [transformarAFrontend, h]
    rfl
  · intro v h
    cases v with
    | undefined => rfl
    | null => rfl
    | nan => rfl
    | bool b =>
      cases b with
      | false => rfl
      | true => simp [JSVal.truthy] at h
    | num q =>
      have hq : q = 0 := by simpa [JSVal.truthy] using h
      subst hq
      rfl
    | str s =>
      have hs : s = "" := by simpa [JSVal.truthy] using h
      subst hs
      rfl
    | obj fs => simp [JSVal.truthy] at h
    | arr xs => simp [JSVal.truthy] at h
  · intro v ht hobj
    cases v with
    | undefined => simp [JSVal.truthy] at ht
    | null => simp [JSVal.truthy] at ht
    | nan => simp [JSVal.truthy] at ht
    | bool b =>
      cases b with
      | true => rfl
      | false => simp [JSVal.truthy] at ht
    | num q =>
      rw [transformarAFrontend, ht]
      rfl
    | str s =>
      rw [transformarAFrontend, ht]
      rfl
    | obj fs => exact absurd rfl (hobj fs)
    | arr xs => rfl
  · intro y v h
    rw [transformarAFrontendServicios, h]
    rfl

/-- Witness for C5: a null record maps to null and is dropped from the
array listing; a truthy string record throws. -/
theorem transformarAFrontend_entradas_malformadas_witness :
    transformarAFrontend JSVal.null = .ok .null ∧
    transformarArrayAFrontend (.arr [registroValido, JSVal.null, registroValido]) =
      .ok [salidaRegistroValido, salidaRegistroValido] ∧
    transformarAFrontend (JSVal.str "x") =
      .error "TypeError: toString of undefined" ∧
    transformarAFrontendServicios 2024 JSVal.null = .null :=
  ⟨transformarAFrontend_entradas_malformadas.1 JSVal.null rfl,
   transformarAFrontend_entradas_malformadas.2.1 JSVal.null rfl,
   transformarAFrontend_entradas_malformadas.2.2.1 (JSVal.str "x") (by decide)
     (fun fs h => JSVal.noConfusion h),
   transformarAFrontend_entradas_malformadas.2.2.2.1 2024 JSVal.null rfl⟩

/-- Claim C10: a stored review record with no recomendaria key is mapped to
recommends = false by the frontend-bound review mapping, although the
storage schema declares a default of true for that field — so unmapped
legacy reviews are reported as not recommending. -/
theorem reseniaSinRecomendaria_mapea_false :
    (∀ fs r, fs.find? (fun p => p.1 = "recomendaria") = none →
      transformarReseniaAFrontend (JSVal.obj fs) = .ok r →
      r.getField "recomendaria" = JSVal.bool false) ∧
    reseniaSchemaRecomendariaDefault = true := by
  refine ⟨?_, rfl⟩
  intro fs r hnone hok
  have hget : (JSVal.obj fs).getField "recomendaria" = .undefined := by
    simp [JSVal.getField, hnone]
  rw [transformarReseniaAFrontend] at hok
  simp only [JSVal.truthy, Bool.not_true] at hok
  rw [if_neg (by simp)] at hok
  rcases hid : ((JSVal.obj fs).getField "_id").toStringJS with e | id
  · rw [hid, bindErr] at hok
    exact Except.noConfusion hok
  · rw [hid, bindOk] at hok
    rcases hjid : juegoIdAFrontend ((JSVal.obj fs).getField "juegoId") with e | jid
    · rw [hjid, bindErr] at hok
      exact Except.noConfusion hok
    · rw [hjid, bindOk] at hok
      rcases hfc : fechaAFrontend ((JSVal.obj fs).getField "fechaCreacion") with e | fc
      · rw [hfc, bindErr] at hok
        exact Except.noConfusion hok
      · rw [hfc, bindOk] at hok
        rcases hfa : fechaAFrontend ((JSVal.obj fs).getField "fechaActualizacion") with e | fa
        · rw [hfa, bindErr] at hok
          exact Except.noConfusion hok
        · rw [hfa, bindOk] at hok
          have hr : JSVal.obj
              [("id", .str id),
               ("juegoId", jid),
               ("puntuacion",
                 if !((JSVal.obj fs).getField "puntuacion").isUndefined &&
                     !((JSVal.obj fs).getField "puntuacion").isNull then
                   ((JSVal.obj fs).getField "puntuacion").numberJS
                 else .null),
               ("texto", ((JSVal.obj fs).getField "textoResena").orJS (.str "")),
               ("horasJugadas",
                 if !((JSVal.obj fs).getField "horasJugadas").isUndefined &&
                     !((JSVal.obj fs).getField "horasJugadas").isNull then
                   ((JSVal.obj fs).getField "horasJugadas").numberJS
                 else .null),
               ("dificultad", ((JSVal.obj fs).getField "dificultad").orJS (.str "")),
               ("recomendaria", .bool ((JSVal.obj fs).getField "recomendaria").truthy),
               ("fechaCreacion", fc),
               ("fechaActualizacion", fa)] = r := by
            injection hok
          rw [← hr, hget]
          rfl

/-- Witness for C10: the concrete stored review with only an id maps to
recommends = false while the schema default is true. -/
theorem reseniaSinRecomendaria_witness :
    salidaResenia.getField "recomendaria" = JSVal.bool false ∧
    reseniaSchemaRecomendariaDefault = true :=
  ⟨reseniaSinRecomendaria_mapea_false.1 registroResenia salidaResenia rfl rfl,
   reseniaSinRecomendaria_mapea_false.2⟩
